import Mathlib

/-!
Shallow embedding of the pipeline-orchestration core of the gst_learn tutorial
repository (src/gst_learn/src/main.rs and src/src/main.rs), together with
theorems settling the specification claims about it.

The embedding follows the Rust source:
  * the appsrc feeder of tutorial_shortcut_pipeline (need-data / enough-data
    callbacks, the idle generation task, the sample counter and the
    mul_div_floor timestamp arithmetic);
  * the pad-added callback of tutorial_dynamic_pipeline (already-linked check
    and the "audio/x-raw" caps predicate);
  * the bus handling of tutorial_streaming (is_live computation, Buffering,
    Eos and ClockLost branches);
  * the CustomData record, handle_message and the bounded-wait polling loop of
    tutorial_queue (duration cache, one-shot seek);
  * the bus loop of tutorial_helloworld (break on Eos / Error, teardown to
    Null).
GStreamer clock times are modelled as nanosecond counts (Nat); the framework
side of a pad link or a buffer push is an explicit boolean input.
-/

namespace GstLearn

/-- GStreamer lifecycle states (gst::State as used by the tutorials). -/
inductive LState where
  | Null
  | Ready
  | Paused
  | Playing
deriving DecidableEq, Repr

/-- Successful results of gst::Element::set_state (gst::StateChangeSuccess). -/
inductive StateChangeSuccess where
  | success
  | async
  | noPreroll
deriving DecidableEq, Repr

/-- tutorial_streaming line 1453: `let is_live = res == gst::StateChangeSuccess::NoPreroll;`. -/
def isLive (res : StateChangeSuccess) : Bool :=
  decide (res = StateChangeSuccess.noPreroll)

/-! ### Flow-controlled feeder (tutorial_shortcut_pipeline) -/

/-- `CHUNK_SIZE` from tutorial_shortcut_pipeline: bytes per generated buffer. -/
def CHUNK_SIZE : Nat := 1024

/-- `SAMPLE_RATE` from tutorial_shortcut_pipeline: samples per second. -/
def SAMPLE_RATE : Nat := 44100

/-- Samples per chunk: `let num_samples = CHUNK_SIZE / 2` (16-bit samples). -/
def chunkSamples : Nat := CHUNK_SIZE / 2

/-- Nanoseconds in `gst::ClockTime::SECOND`. -/
def NSEC_PER_SEC : Nat := 1000000000

/-- `gst::ClockTime::SECOND.mul_div_floor(n, SAMPLE_RATE)`: the nanosecond
clock time of `n` samples, with floor rounding. -/
def clockTimeOfSamples (n : Nat) : Nat :=
  NSEC_PER_SEC * n / SAMPLE_RATE

/-- The pts stamped on the k-th generated chunk (0-based): the sample counter
holds `chunkSamples * k` when chunk k is generated, and
`pts = SECOND.mul_div_floor(data.num_samples, SAMPLE_RATE)`. -/
def ptsAt (k : Nat) : Nat :=
  clockTimeOfSamples (chunkSamples * k)

/-- The duration stamped on every chunk:
`SECOND.mul_div_floor(num_samples as u64, SAMPLE_RATE)` with
`num_samples = CHUNK_SIZE / 2`. -/
def chunkDuration : Nat :=
  clockTimeOfSamples chunkSamples

/-- The mutable state shared by the feeder callbacks of
tutorial_shortcut_pipeline (the relevant fields of `CustomData` there,
plus the set of idle-source ids currently registered with the glib main
loop, which the Rust side keeps implicitly in the glib scheduler).
`source_id` is the `Option<SourceId>` slot, `scheduled` the idle sources
currently pending, `num_samples` the running sample counter and `next_id`
a fresh-id counter standing for glib's source-id allocation. -/
structure FeederState where
  source_id : Option Nat
  scheduled : List Nat
  num_samples : Nat
  next_id : Nat
deriving DecidableEq, Repr

/-- The feeder state at pipeline start: `source_id: None, num_samples: 0`. -/
def initFeeder : FeederState :=
  { source_id := none, scheduled := [], num_samples := 0, next_id := 0 }

/-- The `need_data` callback (main.rs lines 1140-1201): under the data lock,
if `d.source_id.is_none()` it registers a new idle generation task and stores
its id in the slot; otherwise it does nothing. -/
def needData (s : FeederState) : FeederState :=
  match s.source_id with
  | some _ => s
  | none =>
      { s with
        source_id := some s.next_id
        scheduled := s.scheduled ++ [s.next_id]
        next_id := s.next_id + 1 }

/-- The `enough_data` callback (main.rs lines 1202-1213): under the data lock,
`if let Some(source) = data.source_id.take() { source.remove(); }` — it empties
the slot and removes the idle source; with an empty slot it is a no-op. -/
def enoughData (s : FeederState) : FeederState :=
  match s.source_id with
  | some id => { s with source_id := none, scheduled := s.scheduled.erase id }
  | none => s

/-- One invocation of a feeder signal handler. -/
inductive FeederEvent where
  | needData
  | enoughData
deriving DecidableEq, Repr

/-- Dispatch one feeder signal. Each handler takes the single data mutex, so
an interleaving of handler invocations is a sequence of atomic steps. -/
def feederStep (s : FeederState) : FeederEvent → FeederState
  | FeederEvent.needData => needData s
  | FeederEvent.enoughData => enoughData s

/-- Run an interleaving of need-data / enough-data signals. -/
def runFeeder (s : FeederState) : List FeederEvent → FeederState
  | [] => s
  | e :: es => runFeeder (feederStep s e) es

/-- One activation of the idle generation task with id `tid`
(main.rs lines 1154-1199): it advances the sample counter by one chunk and
returns `glib::Continue(appsrc.push_buffer(buffer).is_ok())`; when the push
fails the glib main loop drops the idle source (no rescheduling), but the
closure never touches `data.source_id`. -/
def runIdleTask (s : FeederState) (tid : Nat) (pushOk : Bool) : FeederState :=
  let s1 := { s with num_samples := s.num_samples + chunkSamples }
  if pushOk then s1
  else { s1 with scheduled := s1.scheduled.erase tid }

/-! ### Dynamic link resolver (tutorial_dynamic_pipeline) -/

/-- `new_pad_type.starts_with("audio/x-raw")` (main.rs line 146), on the
character sequence of the caps structure name. -/
def isAudioCaps (capsName : String) : Bool :=
  List.isPrefixOf "audio/x-raw".data capsName.data

/-- Outcome of one pad-added callback invocation. -/
inductive PadResult where
  | alreadyLinked
  | ignored
  | linkFailed
  | linkSucceeded
deriving DecidableEq, Repr

/-- The `connect_pad_added` callback of tutorial_dynamic_pipeline
(main.rs lines 126-161): `linked` is `sink_pad.is_linked()` at entry,
`capsName` the name of the first caps structure of the new pad, and `linkOk`
whether the framework accepts `src_pad.link(&sink_pad)` when attempted.
It returns the sink pad's link flag after the call and the logged outcome. -/
def padAdded (linked : Bool) (capsName : String) (linkOk : Bool) :
    Bool × PadResult :=
  if linked then (linked, PadResult.alreadyLinked)
  else if !(isAudioCaps capsName) then (linked, PadResult.ignored)
  else if linkOk then (true, PadResult.linkSucceeded)
  else (linked, PadResult.linkFailed)

/-- Process a sequence of pad-added notifications from the same source node,
threading the sink pad's link state and collecting the outcomes. -/
def runPadAdded (linked : Bool) : List (String × Bool) → Bool × List PadResult
  | [] => (linked, [])
  | (capsName, linkOk) :: rest =>
      let r := padAdded linked capsName linkOk
      let t := runPadAdded r.1 rest
      (t.1, r.2 :: t.2)

/-- Number of notifications on which the callback performed a successful link. -/
def countSucceeded : List PadResult → Nat
  | [] => 0
  | PadResult.linkSucceeded :: rs => countSucceeded rs + 1
  | _ :: rs => countSucceeded rs

/-! ### tutorial_streaming bus watch -/

/-- The Buffering branch of the tutorial_streaming bus watch
(main.rs lines 1483-1496): on a live pipeline it returns without acting;
otherwise it requests Paused below 30 percent and Playing at or above.
`none` means no state request is issued. -/
def handleBuffering (is_live : Bool) (percent : Int) : Option LState :=
  if is_live then none
  else if percent < 30 then some LState.Paused
  else some LState.Playing

/-- The state requests issued by the Buffering branch over a sequence of
buffering messages: the branch keeps no state between messages, so the run is
a plain map. -/
def runBuffering (is_live : Bool) (ps : List Int) : List (Option LState) :=
  ps.map (handleBuffering is_live)

/-- Number of Paused requests issued in a run of the Buffering branch. -/
def countPaused : List (Option LState) → Nat
  | [] => 0
  | some LState.Paused :: rs => countPaused rs + 1
  | _ :: rs => countPaused rs

/-- Messages handled by the tutorial_streaming bus watch. -/
inductive SMsg where
  | errorMsg
  | eos
  | buffering (percent : Int)
  | clockLost
  | other
deriving DecidableEq, Repr

/-- The tutorial_streaming bus watch body (main.rs lines 1459-1505): for one
message it returns the list of state requests issued and whether the main
loop is quit. The Eos branch requests Ready and quits; the Error branch only
quits; ClockLost requests Paused then Playing. -/
def streamingHandler (is_live : Bool) : SMsg → List LState × Bool
  | SMsg.errorMsg => ([], true)
  | SMsg.eos => ([LState.Ready], true)
  | SMsg.buffering p =>
      (match handleBuffering is_live p with
       | some st => [st]
       | none => [], false)
  | SMsg.clockLost => ([LState.Paused, LState.Playing], false)
  | SMsg.other => ([], false)

/-! ### tutorial_helloworld bus loop -/

/-- Messages distinguished by the tutorial_helloworld bus loop. -/
inductive HwMsg where
  | eos
  | errorMsg
  | other
deriving DecidableEq, Repr

/-- Whether the tutorial_helloworld loop body (main.rs lines 24-40) breaks on
a message: it breaks on Eos and on Error, and does nothing otherwise. -/
def hwBreaks : HwMsg → Bool
  | HwMsg.eos => true
  | HwMsg.errorMsg => true
  | HwMsg.other => false

/-- State requests issued inside the tutorial_helloworld bus loop while
draining `msgs`: the loop body issues none and stops at the first breaking
message. -/
def hwBusLoop : List HwMsg → List LState
  | [] => []
  | m :: rest => if hwBreaks m then [] else hwBusLoop rest

/-- All state requests of one tutorial_helloworld run (main.rs lines 11-47):
set Playing, drain the bus until Eos or Error, then teardown with
`set_state(gst::State::Null)`. -/
def hwRun (msgs : List HwMsg) : List LState :=
  [LState.Playing] ++ hwBusLoop msgs ++ [LState.Null]

/-! ### tutorial_queue (CustomData, handle_message, polling loop) -/

/-- The `CustomData` record of tutorial_queue (main.rs lines 205-213).
The cached duration is a nanosecond count; `none` is `gst::ClockTime::NONE`. -/
structure CustomData where
  playing : Bool
  terminate : Bool
  seek_enabled : Bool
  seek_done : Bool
  duration : Option Nat
deriving DecidableEq, Repr

/-- `CustomData::new` (main.rs lines 216-225). -/
def CustomData.init : CustomData :=
  { playing := false, terminate := false, seek_enabled := false,
    seek_done := false, duration := none }

/-- Bus messages distinguished by tutorial_queue's handle_message.
A StateChanged message carries whether its source is the playbin, whether the
new state is Playing, and the outcome of the subsequent seeking query
(`queryOk` = the query succeeded, `seekable` = its seekable field). -/
inductive QMsg where
  | errorMsg
  | eos
  | durationChanged
  | stateChanged (srcIsPlaybin : Bool) (newIsPlaying : Bool)
      (queryOk : Bool) (seekable : Bool)
  | other
deriving DecidableEq, Repr

/-- `handle_message` of tutorial_queue (main.rs lines 228-285). -/
def handleMessage (m : QMsg) (d : CustomData) : CustomData :=
  match m with
  | QMsg.errorMsg => { d with terminate := true }
  | QMsg.eos => { d with terminate := true }
  | QMsg.durationChanged => { d with duration := none }
  | QMsg.stateChanged srcIsPlaybin newIsPlaying queryOk seekable =>
      if srcIsPlaybin then
        let d1 := { d with playing := newIsPlaying }
        if d1.playing then
          if queryOk then { d1 with seek_enabled := seekable } else d1
        else d1
      else d
  | QMsg.other => d

/-- The timeout (no-message) branch of the tutorial_queue polling loop
(main.rs lines 308-344): when playing, re-fetch the duration if the cache is
empty, then issue the one-shot seek when seeking is enabled, not yet done and
the queried position exceeds 3 seconds. Returns the updated data and whether
a seek was issued on this iteration. -/
def pollStep (d : CustomData) (position : Nat) (graphDuration : Option Nat) :
    CustomData × Bool :=
  if d.playing then
    let d1 := if d.duration = none then { d with duration := graphDuration } else d
    if d1.seek_enabled && !d1.seek_done && decide (3 * NSEC_PER_SEC < position) then
      ({ d1 with seek_done := true }, true)
    else (d1, false)
  else (d, false)

/-- One iteration of the tutorial_queue loop: either `timed_pop` returned a
message, or it timed out and the polling branch runs with the queried
position and the graph's current duration. -/
inductive QEvent where
  | msg (m : QMsg)
  | timeout (position : Nat) (graphDuration : Option Nat)
deriving DecidableEq, Repr

/-- Dispatch one loop iteration; the boolean is whether a seek was issued. -/
def qStep (d : CustomData) : QEvent → CustomData × Bool
  | QEvent.msg m => (handleMessage m d, false)
  | QEvent.timeout pos gd => pollStep d pos gd

/-- Run the tutorial_queue loop (`while !custom_data.terminate`) over a
sequence of iterations, counting the seeks issued. -/
def qRun (d : CustomData) : List QEvent → CustomData × Nat
  | [] => (d, 0)
  | e :: es =>
      if d.terminate then (d, 0)
      else
        let r := qStep d e
        let t := qRun r.1 es
        (t.1, (if r.2 then 1 else 0) + t.2)

/-! ### Theorems -/

/-- One feeder signal preserves the invariant that the pending idle sources
are exactly the content of the source_id slot. -/
theorem feederStep_sched_eq_slot (s : FeederState) (e : FeederEvent)
    (h : s.scheduled = s.source_id.toList) :
    (feederStep s e).scheduled = (feederStep s e).source_id.toList := by
  cases e with
  | needData =>
    cases hs : s.source_id with
    | none =>
      rw [hs] at h
      simp [feederStep, needData, hs, h]
    | some id => simp [feederStep, needData, hs, h]
  | enoughData =>
    cases hs : s.source_id with
    | none => simp [feederStep, enoughData, hs, h]
    | some id =>
      rw [hs] at h
      simp [feederStep, enoughData, hs, h]

/-- Any interleaving of feeder signals keeps the pending idle sources equal to
the content of the source_id slot. -/
theorem runFeeder_sched_eq_slot (es : List FeederEvent) (s : FeederState)
    (h : s.scheduled = s.source_id.toList) :
    (runFeeder s es).scheduled = (runFeeder s es).source_id.toList := by
  induction es generalizing s with
  | nil => simpa [runFeeder] using h
  | cons e es ih =>
    simp only [runFeeder]
    exact ih _ (feederStep_sched_eq_slot s e h)

/-- C1: for every interleaving of need-data and enough-data signals, at most
one generation task is scheduled at any time; need-data is idempotent while a
task is scheduled; enough-data with an empty slot is a no-op; and the pending
tasks always coincide with the content of the source_id slot. -/
theorem feeder_at_most_one_task :
    (∀ es : List FeederEvent,
        ((runFeeder initFeeder es).scheduled).length ≤ 1) ∧
    (∀ s : FeederState, needData (needData s) = needData s) ∧
    (∀ s : FeederState, s.source_id = none → enoughData s = s) ∧
    (∀ es : List FeederEvent,
        (runFeeder initFeeder es).scheduled =
          (runFeeder initFeeder es).source_id.toList) := by
  refine ⟨?_, ?_, ?_, ?_⟩
  · intro es
    have h := runFeeder_sched_eq_slot es initFeeder rfl
    rw [h]
    cases (runFeeder initFeeder es).source_id <;> simp
  · intro s
    cases hs : s.source_id with
    | none => simp [needData, hs]
    | some id => simp [needData, hs]
  · intro s hs
    simp [enoughData, hs]
  · intro es
    exact runFeeder_sched_eq_slot es initFeeder rfl

/-- Witness for feeder_at_most_one_task at concrete inputs. -/
theorem feeder_at_most_one_task_witness :
    ((runFeeder initFeeder [FeederEvent.needData, FeederEvent.needData,
        FeederEvent.enoughData]).scheduled).length ≤ 1 ∧
    needData (needData initFeeder) = needData initFeeder ∧
    enoughData initFeeder = initFeeder ∧
    (runFeeder initFeeder [FeederEvent.needData]).scheduled =
      (runFeeder initFeeder [FeederEvent.needData]).source_id.toList :=
  ⟨feeder_at_most_one_task.1 _, feeder_at_most_one_task.2.1 _,
   feeder_at_most_one_task.2.2.1 _ rfl, feeder_at_most_one_task.2.2.2 _⟩

/-- C4 counterexample: after need-data schedules task 0 from the initial
state, a push failure deschedules the task but leaves the source_id slot
occupied (still some 0), refuting that the task clears the shared flag. -/
theorem push_failure_keeps_slot_cex :
    (runIdleTask (needData initFeeder) 0 false).scheduled = [] ∧
    (runIdleTask (needData initFeeder) 0 false).source_id = some 0 ∧
    (runIdleTask (needData initFeeder) 0 false).source_id ≠ none := by
  decide

/-- C4 amended: on push failure the generation task stops rescheduling itself
(its idle source is removed, no retry), but the source_id slot is left
unchanged rather than cleared; consequently a later need-data still sees the
slot occupied and does nothing. On push success the task stays scheduled. -/
theorem push_failure_stops_reschedule :
    (∀ s tid, (runIdleTask s tid false).scheduled = s.scheduled.erase tid) ∧
    (∀ s tid, (runIdleTask s tid false).source_id = s.source_id) ∧
    (∀ s tid, (runIdleTask s tid true).scheduled = s.scheduled) ∧
    (∀ s tid b, (runIdleTask s tid b).num_samples =
        s.num_samples + chunkSamples) ∧
    needData (runIdleTask (needData initFeeder) 0 false) =
      runIdleTask (needData initFeeder) 0 false := by
  refine ⟨fun s tid => rfl, fun s tid => rfl, fun s tid => rfl, ?_, by decide⟩
  intro s tid b
  cases b <;> rfl

/-- C3 counterexample: between chunks 3 and 4 the pts difference is
chunkDuration + 1 (11609978 ns against a duration of 11609977 ns), refuting
the exact equality pts(k+1) - pts(k) = duration(k). -/
theorem pts_exact_duration_cex :
    ptsAt 4 - ptsAt 3 = chunkDuration + 1 ∧
    ptsAt 4 - ptsAt 3 ≠ chunkDuration := by
  decide

/-- C3 amended: the pts sequence is non-decreasing, and every consecutive pts
difference equals the chunk duration or the chunk duration plus one (the
floor-rounding carry), never less. -/
theorem pts_monotone_and_duration_bounds (k : Nat) :
    ptsAt k ≤ ptsAt (k + 1) ∧
    chunkDuration ≤ ptsAt (k + 1) - ptsAt k ∧
    ptsAt (k + 1) - ptsAt k ≤ chunkDuration + 1 := by
  simp only [ptsAt, clockTimeOfSamples, chunkSamples, CHUNK_SIZE, NSEC_PER_SEC,
    SAMPLE_RATE, chunkDuration]
  omega

/-- A pad-added invocation with the sink pad already linked returns
already-linked and changes nothing, for any caps and any framework answer. -/
theorem padAdded_of_linked (capsName : String) (linkOk : Bool) :
    padAdded true capsName linkOk = (true, PadResult.alreadyLinked) := rfl

/-- Once the sink pad is linked, every further notification reports
already-linked and the pad stays linked. -/
theorem runPadAdded_of_linked (es : List (String × Bool)) :
    runPadAdded true es = (true, es.map (fun _ => PadResult.alreadyLinked)) := by
  induction es with
  | nil => rfl
  | cons e es ih =>
    obtain ⟨capsName, linkOk⟩ := e
    simp [runPadAdded, padAdded, ih]

/-- A run of already-linked outcomes contains no successful link. -/
theorem countSucceeded_map_const {α : Type} (es : List α) :
    countSucceeded (es.map (fun _ => PadResult.alreadyLinked)) = 0 := by
  induction es with
  | nil => rfl
  | cons e es ih => simpa [countSucceeded] using ih

/-- A run of already-linked outcomes contains no successful link
(replicate form). -/
theorem countSucceeded_replicate (n : Nat) :
    countSucceeded (List.replicate n PadResult.alreadyLinked) = 0 := by
  induction n with
  | zero => rfl
  | succ n ih => simpa [countSucceeded, List.replicate] using ih

/-- Over any notification sequence starting unlinked, the callback performs at
most one successful link. -/
theorem countSucceeded_runPadAdded_le_one (es : List (String × Bool)) :
    countSucceeded (runPadAdded false es).2 ≤ 1 := by
  induction es with
  | nil => simp [runPadAdded, countSucceeded]
  | cons e es ih =>
    obtain ⟨capsName, linkOk⟩ := e
    cases ha : isAudioCaps capsName with
    | false => simpa [runPadAdded, padAdded, ha, countSucceeded] using ih
    | true =>
      cases linkOk with
      | false => simpa [runPadAdded, padAdded, ha, countSucceeded] using ih
      | true =>
        simp [runPadAdded, padAdded, ha, runPadAdded_of_linked, countSucceeded,
          countSucceeded_map_const, countSucceeded_replicate]

/-- C2: over every sequence of repeated pad-added notifications the sink pad
ends up linked at most once; once linked, the callback reports already-linked
without attempting a link; after a first matching, accepted notification every
later notification yields already-linked, so no link-rejected outcome occurs
on a repeated notification. -/
theorem deferred_link_idempotent :
    (∀ es : List (String × Bool),
        countSucceeded (runPadAdded false es).2 ≤ 1) ∧
    (∀ (capsName : String) (linkOk : Bool),
        padAdded true capsName linkOk = (true, PadResult.alreadyLinked)) ∧
    (∀ (capsName : String) (es : List (String × Bool)),
        isAudioCaps capsName = true →
        (runPadAdded false ((capsName, true) :: es)).2 =
          PadResult.linkSucceeded :: es.map (fun _ => PadResult.alreadyLinked)) ∧
    (∀ (capsName : String) (es : List (String × Bool)),
        isAudioCaps capsName = true →
        PadResult.linkFailed ∉ (runPadAdded false ((capsName, true) :: es)).2) := by
  have h3 : ∀ (capsName : String) (es : List (String × Bool)),
      isAudioCaps capsName = true →
      (runPadAdded false ((capsName, true) :: es)).2 =
        PadResult.linkSucceeded :: es.map (fun _ => PadResult.alreadyLinked) := by
    intro capsName es ha
    simp [runPadAdded, padAdded, ha, runPadAdded_of_linked]
  refine ⟨countSucceeded_runPadAdded_le_one, fun c o => rfl, h3, ?_⟩
  intro capsName es ha
  rw [h3 capsName es ha]
  simp

/-- Witness for deferred_link_idempotent: two matching audio notifications. -/
theorem deferred_link_idempotent_witness :
    countSucceeded (runPadAdded false
      [("audio/x-raw", true), ("audio/x-raw", true)]).2 ≤ 1 ∧
    padAdded true "audio/x-raw" true = (true, PadResult.alreadyLinked) ∧
    (runPadAdded false [("audio/x-raw", true), ("audio/x-raw", true)]).2 =
      PadResult.linkSucceeded ::
        [(("audio/x-raw" : String), true)].map (fun _ => PadResult.alreadyLinked) ∧
    PadResult.linkFailed ∉
      (runPadAdded false [("audio/x-raw", true), ("audio/x-raw", true)]).2 :=
  ⟨deferred_link_idempotent.1 _, deferred_link_idempotent.2.1 _ _,
   deferred_link_idempotent.2.2.1 "audio/x-raw" [("audio/x-raw", true)] (by decide),
   deferred_link_idempotent.2.2.2 "audio/x-raw" [("audio/x-raw", true)] (by decide)⟩

/-- C9: the callback links only when the caps name matches the raw-audio
predicate; on a mismatch it reports the pad ignored, leaves the pad unlinked
and raises no error, and on a match it attempts the link. -/
theorem predicate_gates_linking :
    (∀ (capsName : String) (linkOk : Bool), isAudioCaps capsName = false →
        padAdded false capsName linkOk = (false, PadResult.ignored)) ∧
    (∀ (capsName : String) (linkOk : Bool), isAudioCaps capsName = true →
        padAdded false capsName linkOk =
          (if linkOk then (true, PadResult.linkSucceeded)
           else (false, PadResult.linkFailed))) := by
  constructor
  · intro capsName linkOk ha
    simp [padAdded, ha]
  · intro capsName linkOk ha
    cases linkOk <;> simp [padAdded, ha]

/-- Witness for predicate_gates_linking: a video pad is ignored, an audio pad
is linked. -/
theorem predicate_gates_linking_witness :
    padAdded false "video/x-raw" true = (false, PadResult.ignored) ∧
    padAdded false "audio/x-raw" true =
      (if true then (true, PadResult.linkSucceeded)
       else (false, PadResult.linkFailed)) :=
  ⟨predicate_gates_linking.1 "video/x-raw" true (by decide),
   predicate_gates_linking.2 "audio/x-raw" true (by decide)⟩

/-- C5: on a non-live pipeline the Buffering branch forces Paused strictly
below 30 percent and Playing at or above; with the live flag obtained from a
NoPreroll transition result the branch issues no state request at all; and
NoPreroll is the only success variant marking the pipeline live. -/
theorem buffering_policy :
    (∀ p : Int, handleBuffering false p =
        some (if p < 30 then LState.Paused else LState.Playing)) ∧
    (∀ p : Int, handleBuffering (isLive StateChangeSuccess.noPreroll) p = none) ∧
    isLive StateChangeSuccess.noPreroll = true ∧
    isLive StateChangeSuccess.success = false ∧
    isLive StateChangeSuccess.async = false := by
  refine ⟨?_, fun p => rfl, rfl, rfl, rfl⟩
  intro p
  by_cases hp : p < 30 <;> simp [handleBuffering, hp]

/-- C6 counterexample: with levels 25, 35, 25 in one buffering episode of a
non-live pipeline, the branch issues two Paused requests, refuting the claim
that the pipeline is pushed below Active at most once per episode. -/
theorem buffering_thrash_cex :
    runBuffering false [25, 35, 25] =
      [some LState.Paused, some LState.Playing, some LState.Paused] ∧
    countPaused (runBuffering false [25, 35, 25]) = 2 := by
  decide

/-- C6 amended: the Buffering branch keeps no edge state and issues a state
request on every message of a non-live pipeline — Paused for each level below
30, Playing for each level at or above — so oscillating levels yield repeated
pause requests. -/
theorem buffering_every_message (ps : List Int) :
    runBuffering false ps =
      ps.map (fun p => some (if p < 30 then LState.Paused else LState.Playing)) := by
  induction ps with
  | nil => rfl
  | cons p ps ih =>
    simp only [runBuffering, List.map] at ih ⊢
    by_cases hp : p < 30 <;> simp [handleBuffering, hp, ih]

/-- C7: handling DurationChanged resets the cached duration to unknown, and
the next polling iteration in playing state re-fetches the duration from the
graph. -/
theorem duration_cache_invalidation :
    (∀ d : CustomData, (handleMessage QMsg.durationChanged d).duration = none) ∧
    (∀ (d : CustomData) (pos : Nat) (gd : Option Nat), d.playing = true →
        (pollStep (handleMessage QMsg.durationChanged d) pos gd).1.duration = gd) := by
  constructor
  · intro d
    rfl
  · intro d pos gd hp
    show (pollStep { d with duration := none } pos gd).1.duration = gd
    unfold pollStep
    by_cases hc : 3 * NSEC_PER_SEC < pos
    · cases he : d.seek_enabled <;> cases hs : d.seek_done <;> simp_all
    · cases he : d.seek_enabled <;> cases hs : d.seek_done <;>
        simp_all [if_neg hc]

/-- Witness for duration_cache_invalidation in a playing state. -/
theorem duration_cache_invalidation_witness :
    (handleMessage QMsg.durationChanged CustomData.init).duration = none ∧
    (pollStep (handleMessage QMsg.durationChanged
        { CustomData.init with playing := true }) 0 (some 5)).1.duration = some 5 :=
  ⟨duration_cache_invalidation.1 _,
   duration_cache_invalidation.2 { CustomData.init with playing := true } 0 (some 5) rfl⟩

/-- C8 counterexample: in a tutorial_helloworld run where an EndOfStream
message arrives, the loop breaks and the only state transition after start is
to Null (Unset); Ready is never requested, refuting the claim for every
message-bus loop of the repository. -/
theorem eos_sets_ready_cex :
    hwRun [HwMsg.eos] = [LState.Playing, LState.Null] ∧
    LState.Ready ∉ hwRun [HwMsg.eos] ∧
    hwBreaks HwMsg.eos = true := by
  decide

/-- C8 amended: the watch-mode dispatcher of tutorial_streaming answers
EndOfStream by requesting Ready and quitting the loop; the blocking loops do
not transition to Ready: tutorial_helloworld merely breaks on EndOfStream and
its teardown then requests Null, with Ready never requested, and
tutorial_queue only sets its terminate flag with no state change. -/
theorem eos_handling_amended :
    (∀ b : Bool, streamingHandler b SMsg.eos = ([LState.Ready], true)) ∧
    (∀ msgs : List HwMsg, hwBusLoop (HwMsg.eos :: msgs) = []) ∧
    (∀ msgs : List HwMsg, hwRun (HwMsg.eos :: msgs) = [LState.Playing, LState.Null]) ∧
    (∀ d : CustomData, (handleMessage QMsg.eos d).terminate = true) :=
  ⟨fun _ => rfl, fun _ => rfl, fun _ => rfl, fun _ => rfl⟩

/-- handle_message never touches the seek_done flag. -/
theorem handleMessage_seek_done (m : QMsg) (d : CustomData) :
    (handleMessage m d).seek_done = d.seek_done := by
  cases m with
  | errorMsg => rfl
  | eos => rfl
  | durationChanged => rfl
  | stateChanged sp np qo sk => cases sp <;> cases np <;> cases qo <;> rfl
  | other => rfl

/-- The polling branch issues a seek exactly when playing, seeking enabled,
seek not yet done and the position exceeds 3 seconds. -/
theorem pollStep_seek_cond (d : CustomData) (pos : Nat) (gd : Option Nat) :
    (pollStep d pos gd).2 =
      (d.playing && d.seek_enabled && !d.seek_done &&
        decide (3 * NSEC_PER_SEC < pos)) := by
  unfold pollStep
  by_cases hc : 3 * NSEC_PER_SEC < pos
  · cases hp : d.playing <;> by_cases hd : d.duration = none <;>
      cases he : d.seek_enabled <;> cases hs : d.seek_done <;> simp_all
  · rw [decide_eq_false hc]
    cases hp : d.playing <;> by_cases hd : d.duration = none <;>
      cases he : d.seek_enabled <;> cases hs : d.seek_done <;>
        simp_all [if_neg hc]

/-- After a polling iteration the seek_done flag holds exactly when it already
held or a seek was just issued. -/
theorem pollStep_seek_done (d : CustomData) (pos : Nat) (gd : Option Nat) :
    (pollStep d pos gd).1.seek_done = (d.seek_done || (pollStep d pos gd).2) := by
  unfold pollStep
  by_cases hc : 3 * NSEC_PER_SEC < pos
  · cases hp : d.playing <;> by_cases hd : d.duration = none <;>
      cases he : d.seek_enabled <;> cases hs : d.seek_done <;> simp_all
  · cases hp : d.playing <;> by_cases hd : d.duration = none <;>
      cases he : d.seek_enabled <;> cases hs : d.seek_done <;>
        simp_all [if_neg hc]

/-- Once seek_done holds, no further iteration of the tutorial_queue loop
issues a seek. -/
theorem qRun_no_seek_of_done (es : List QEvent) (d : CustomData)
    (h : d.seek_done = true) : (qRun d es).2 = 0 := by
  induction es generalizing d with
  | nil => rfl
  | cons e es ih =>
    cases ht : d.terminate with
    | true => simp [qRun, ht]
    | false =>
      simp only [qRun, ht]
      cases e with
      | msg m =>
        have hs := handleMessage_seek_done m d
        simp [qStep, ih (handleMessage m d) (by rw [hs, h])]
      | timeout pos gd =>
        have hc := pollStep_seek_cond d pos gd
        rw [h] at hc
        have h2 : (pollStep d pos gd).2 = false := by simpa using hc
        have hd1 : (pollStep d pos gd).1.seek_done = true := by
          rw [pollStep_seek_done, h]
          simp
        simp [qStep, h2, ih (pollStep d pos gd).1 hd1]

/-- Any run of the tutorial_queue loop issues at most one seek. -/
theorem qRun_seek_le_one (es : List QEvent) (d : CustomData) :
    (qRun d es).2 ≤ 1 := by
  induction es generalizing d with
  | nil => simp [qRun]
  | cons e es ih =>
    cases ht : d.terminate with
    | true => simp [qRun, ht]
    | false =>
      simp only [qRun, ht]
      cases e with
      | msg m => simpa [qStep] using ih (handleMessage m d)
      | timeout pos gd =>
        cases h2 : (pollStep d pos gd).2 with
        | false => simpa [qStep, h2] using ih (pollStep d pos gd).1
        | true =>
          have hd1 : (pollStep d pos gd).1.seek_done = true := by
            rw [pollStep_seek_done, h2]
            simp
          simp [qStep, h2, qRun_no_seek_of_done es _ hd1]

/-- C10: over every run of the tutorial_queue loop from the initial data at
most one seek is issued; a seek is issued exactly when playing, seeking
enabled, the seek not yet done and the position beyond 3 seconds; and the
seek_done flag is set exactly by that first seek. -/
theorem one_shot_seek :
    (∀ es : List QEvent, (qRun CustomData.init es).2 ≤ 1) ∧
    (∀ (d : CustomData) (pos : Nat) (gd : Option Nat),
        (pollStep d pos gd).2 =
          (d.playing && d.seek_enabled && !d.seek_done &&
            decide (3 * NSEC_PER_SEC < pos))) ∧
    (∀ (d : CustomData) (pos : Nat) (gd : Option Nat),
        (pollStep d pos gd).1.seek_done = (d.seek_done || (pollStep d pos gd).2)) :=
  ⟨fun es => qRun_seek_le_one es CustomData.init, pollStep_seek_cond,
   pollStep_seek_done⟩

end GstLearn
